import Mathlib

/-!
Verification development for the `ipxedust` dual-protocol (TFTP + HTTP) iPXE
serving orchestrator (`ipxedust.go`).

The embedding below models, from the source:
  * the configuration data model (`Server`, `ServerSpec`, `netaddr.IPPort`,
    `logr.Logger`, `time.Duration` as nanosecond integers);
  * configuration resolution: `mergo.Merge(c, defaults, mergo.WithTransformers(c))`
    with the custom `Transformer` for `netaddr.IPPort` (merge iff `IsZero`) and
    `logr.Logger` (merge iff `GetSink() == nil`), and mergo's default
    fill-empty-fields behaviour for `time.Duration` and `bool` fields;
  * the validation / resolution / task-launch phases of `ListenAndServe` and
    `Serve`, including the nil and typed-nil (reflection) handle checks of
    `Serve`, `serveHTTP` and `serveTFTP`;
  * the error-suppression tails of `listenAndServeHTTP` / `serveHTTP`
    (`http.ErrServerClosed` mapped to nil after a successful `Shutdown`);
  * `errgroup.Group.Wait` (returns the first non-nil error, in task completion
    order) and `errgroup.WithContext` (first non-nil task error cancels the
    shared context), per the documented semantics of `golang.org/x/sync/errgroup`;
  * the timed shutdown sequence of `listenAndServeTFTP` / `serveTFTP`:
    start the serve loop with `g.Go`, `time.Sleep(time.Second)`, block on
    `<-ctx.Done()`, then `conn.Close()` and `ts.Shutdown()`.
-/

namespace Ipxedust

/-- One nanosecond-resolution second, as `time.Second : time.Duration` (int64). -/
def nsPerSecond : Int := 1000000000

/-- `time.Second` as a nonnegative timestamp/duration unit for the timed models. -/
def timeSecondNat : Nat := 1000000000

/-- Model of `netaddr.IP`.  The zero `netaddr.IP` is the invalid "no address"
value; `netaddr.IPv4(0,0,0,0)` is a valid address and is NOT the zero value.
We model the address payload of a valid IP as its four octets. -/
structure IP where
  octets : Option (Nat × Nat × Nat × Nat)
deriving DecidableEq, Repr

/-- `netaddr.IPv4(a, b, c, d)`: a valid IPv4 address. -/
def IPv4 (a b c d : Nat) : IP := ⟨some (a, b, c, d)⟩

/-- Model of `netaddr.IPPort`. -/
structure IPPort where
  ip : IP
  port : Nat
deriving DecidableEq, Repr

/-- `netaddr.IPPortFrom(ip, port)`. -/
def IPPortFrom (ip : IP) (port : Nat) : IPPort := ⟨ip, port⟩

/-- `netaddr.IPPort.IsZero`: reports whether the value is the zero `IPPort`
(zero IP and port 0). -/
def IPPort.IsZero (p : IPPort) : Bool := p.ip.octets.isNone && p.port == 0

/-- Model of a `logr.LogSink` implementation: the library's discard sink or
some caller-supplied sink. -/
inductive LogSink where
  | discard
  | custom (id : Nat)
deriving DecidableEq, Repr

/-- Model of `logr.Logger`: a struct wrapping a possibly-nil `LogSink`.
`GetSink() == nil` corresponds to `sink = none`. -/
structure Logger where
  sink : Option LogSink
deriving DecidableEq, Repr

/-- `logr.Discard()`: a logger carrying the discard sink. -/
def logrDiscard : Logger := ⟨some .discard⟩

/-- `ServerSpec` holds details used to configure one protocol server
(`Addr`, `Timeout`, `Disabled`), as in `ipxedust.go`. -/
structure ServerSpec where
  Addr : IPPort
  Timeout : Int
  Disabled : Bool
deriving DecidableEq, Repr

/-- `Server` holds the details for configuring the iPXE service, as in
`ipxedust.go`. -/
structure Server where
  TFTP : ServerSpec
  HTTP : ServerSpec
  Log : Logger
  EnableTFTPSinglePort : Bool
deriving DecidableEq, Repr

/-- The custom `Transformer` branch for `netaddr.IPPort`: overwrite `dst`
with `src` iff `dst.IsZero()`. -/
def mergeIPPort (dst src : IPPort) : IPPort :=
  if dst.IsZero then src else dst

/-- The custom `Transformer` branch for `logr.Logger`: overwrite `dst` with
`src` iff `dst.GetSink()` is nil. -/
def mergeLogger (dst src : Logger) : Logger :=
  if dst.sink.isNone then src else dst

/-- mergo's default behaviour on a `time.Duration` (int64) field: fill `dst`
from `src` iff `dst` is the zero value. -/
def mergeDuration (dst src : Int) : Int :=
  if dst = 0 then src else dst

/-- mergo's default behaviour on a `bool` field: fill `dst` from `src` iff
`dst` is the zero value `false`. -/
def mergeBool (dst src : Bool) : Bool :=
  if dst = false then src else dst

/-- mergo's recursive struct merge on a `ServerSpec`, with the `IPPort`
transformer applied to `Addr`. -/
def mergeServerSpec (dst src : ServerSpec) : ServerSpec :=
  { Addr := mergeIPPort dst.Addr src.Addr
  , Timeout := mergeDuration dst.Timeout src.Timeout
  , Disabled := mergeBool dst.Disabled src.Disabled }

/-- `mergo.Merge(c, defaults, mergo.WithTransformers(c))` on the `Server`
struct: recursive fill-empty merge with the two custom transformer branches.
(The Go call returns an error only for invalid arguments — a non-pointer or
mismatched-type `dst` — which cannot occur at these call sites, so the model
is total.) -/
def mergoMerge (dst src : Server) : Server :=
  { TFTP := mergeServerSpec dst.TFTP src.TFTP
  , HTTP := mergeServerSpec dst.HTTP src.HTTP
  , Log := mergeLogger dst.Log src.Log
  , EnableTFTPSinglePort := mergeBool dst.EnableTFTPSinglePort src.EnableTFTPSinglePort }

/-- The `defaults` value built inside `ListenAndServe`. -/
def listenAndServeDefaults : Server :=
  { TFTP := { Addr := IPPortFrom (IPv4 0 0 0 0) 69, Timeout := 5 * nsPerSecond, Disabled := false }
  , HTTP := { Addr := IPPortFrom (IPv4 0 0 0 0) 8080, Timeout := 5 * nsPerSecond, Disabled := false }
  , Log := logrDiscard
  , EnableTFTPSinglePort := false }

/-- The `defaults` value built inside `Serve` (no default addresses: the
caller supplies pre-bound handles). -/
def serveDefaults : Server :=
  { TFTP := { Addr := ⟨⟨none⟩, 0⟩, Timeout := 5 * nsPerSecond, Disabled := false }
  , HTTP := { Addr := ⟨⟨none⟩, 0⟩, Timeout := 5 * nsPerSecond, Disabled := false }
  , Log := logrDiscard
  , EnableTFTPSinglePort := false }

/-- The configuration-resolution step of `ListenAndServe`. -/
def listenAndServeResolve (c : Server) : Server :=
  mergoMerge c listenAndServeDefaults

/-- The configuration-resolution step of `Serve`. -/
def serveResolve (c : Server) : Server :=
  mergoMerge c serveDefaults

/-- Model of the Go `error` values that flow through the orchestrator:
`errors.New(msg)` sentinels created in `ipxedust.go`, `http.ErrServerClosed`,
and otherwise-unstructured errors surfacing from serve loops or shutdowns.
No call in `ipxedust.go` wraps or joins errors, so a returned error is always
one of these values verbatim. -/
inductive GoErr where
  | errNew (msg : String)
  | errServerClosed
  | generic (id : Nat)
deriving DecidableEq, Repr

/-- A Go interface value holding a `net.Listener` / `net.PacketConn`:
either the nil interface, a non-nil interface wrapping a nil concrete value
(typed nil), or a real handle. -/
inductive GoIface (α : Type) where
  | nil
  | typedNil
  | val (a : α)
deriving DecidableEq, Repr

/-- The Go comparison `x == nil` on an interface value: true only for the
nil interface, false for a typed nil. -/
def GoIface.isIfaceNil {α : Type} : GoIface α → Bool
  | .nil => true
  | _ => false

/-- `reflect.ValueOf(x).IsNil()`: true when the concrete value inside the
interface is nil.  (In the source this is only reached after `x == nil` is
false, so the `.nil` case is never evaluated in Go; we give it `true`, which
keeps `x == nil || reflect.ValueOf(x).IsNil()` pointwise equal to the Go
expression.) -/
def GoIface.reflectIsNil {α : Type} : GoIface α → Bool
  | .val _ => false
  | _ => true

/-- Opaque payload of a real `net.Listener`. -/
abbrev TCPListener : Type := Nat

/-- Opaque payload of a real `net.PacketConn`. -/
abbrev UDPConn : Type := Nat

/-- The two protocol serving tasks the orchestrator can launch with `g.Go`. -/
inductive ProtoTask where
  | tftp
  | http
deriving DecidableEq, Repr

/-- Outcome of the sequential prefix of `Serve` (validation, configuration
resolution, task launch): the early-return error if any, the configuration
state of the `Server` after the call's merge step, and the list of serving
tasks handed to `g.Go`, in program order. -/
structure ServeOutcome where
  result : Option GoErr
  config : Server
  tasks : List ProtoTask
deriving DecidableEq, Repr

/-- The validation / resolution / launch phases of `Server.Serve`
(`ipxedust.go`): nil-handle checks first, then `mergo.Merge` with
`serveDefaults`, then one `g.Go` per non-disabled protocol (TFTP first,
then HTTP).  The subsequent `<-ctx.Done()` / `g.Wait()` tail is modelled
separately (`orchestratorWait`). -/
def ServeSetup (c : Server) (tcpConn : GoIface TCPListener)
    (udpConn : GoIface UDPConn) : ServeOutcome :=
  if tcpConn.isIfaceNil then
    ⟨some (.errNew "tcp listener must not be nil"), c, []⟩
  else if udpConn.isIfaceNil then
    ⟨some (.errNew "udp conn must not be nil"), c, []⟩
  else
    let merged := serveResolve c
    ⟨none, merged,
      (if merged.TFTP.Disabled then [] else [.tftp])
        ++ (if merged.HTTP.Disabled then [] else [.http])⟩

/-- The resolution / launch phases of `Server.ListenAndServe`: `mergo.Merge`
with `listenAndServeDefaults`, then one `g.Go` per non-disabled protocol
(TFTP first, then HTTP). -/
def listenAndServeSetup (c : Server) : ServeOutcome :=
  let merged := listenAndServeResolve c
  ⟨none, merged,
    (if merged.TFTP.Disabled then [] else [.tftp])
      ++ (if merged.HTTP.Disabled then [] else [.http])⟩

/-- Outcome of a serving task's entry check: the early error, if any, and
whether the serve loop was started. -/
structure TaskEntry where
  earlyErr : Option GoErr
  startedServing : Bool
deriving DecidableEq, Repr

/-- The entry check of `serveHTTP`:
`if l == nil || reflect.ValueOf(l).IsNil() { return errors.New(...) }`,
after which the serve loop is started with `g.Go`. -/
def serveHTTPEntry (l : GoIface TCPListener) : TaskEntry :=
  if l.isIfaceNil || l.reflectIsNil then
    ⟨some (.errNew "listener must not be nil"), false⟩
  else
    ⟨none, true⟩

/-- The entry check of `serveTFTP`:
`if conn == nil || reflect.ValueOf(conn).IsNil() { return errors.New(...) }`,
after which the serve loop is started with `g.Go`. -/
def serveTFTPEntry (conn : GoIface UDPConn) : TaskEntry :=
  if conn.isIfaceNil || conn.reflectIsNil then
    ⟨some (.errNew "conn must not be nil"), false⟩
  else
    ⟨none, true⟩

/-- The tail of `listenAndServeHTTP`: after `<-ctx.Done()`, run
`hs.Shutdown(ctx)`; a non-nil shutdown error is returned as-is; otherwise the
serve loop's result from `g.Wait()` is returned, with `http.ErrServerClosed`
rewritten to nil (`if errors.Is(err, http.ErrServerClosed) { err = nil }`). -/
def listenAndServeHTTPFinish (shutdownErr serveErr : Option GoErr) : Option GoErr :=
  match shutdownErr with
  | some e => some e
  | none =>
    match serveErr with
    | some e => if e = .errServerClosed then none else some e
    | none => none

/-- The tail of `serveHTTP`: identical logic written as
`if errors.Is(err, http.ErrServerClosed) { return nil }; return err`. -/
def serveHTTPFinish (shutdownErr serveErr : Option GoErr) : Option GoErr :=
  match shutdownErr with
  | some e => some e
  | none =>
    match serveErr with
    | some e => if e = .errServerClosed then none else some e
    | none => none

/-- `errgroup.Group.Wait` (golang.org/x/sync/errgroup): blocks until every
function started with `Go` has returned, then returns the error of the first
function to have returned a non-nil error, or nil.  The argument lists the
tasks' return values in completion order; only the first non-nil one is
recorded (`g.errOnce.Do`), all later ones are dropped. -/
def errgroupWait : List (Option GoErr) → Option GoErr
  | [] => none
  | some e :: _ => some e
  | none :: rest => errgroupWait rest

/-- The return value of `ListenAndServe` once its group finishes:
`err = g.Wait(); return err` over the task results (each already
post-suppression, i.e. as returned by `listenAndServeTFTP` /
`listenAndServeHTTP`), in completion order. -/
def ListenAndServeReturn (taskResults : List (Option GoErr)) : Option GoErr :=
  errgroupWait taskResults

/-- The return value of `Serve` once its group finishes: `err = g.Wait();
return err` over the task results in completion order. -/
def ServeReturn (taskResults : List (Option GoErr)) : Option GoErr :=
  errgroupWait taskResults

/-- `errors.Is(r, e)` for the error values of this program: no error in
`ipxedust.go` wraps another (no `fmt.Errorf("%w")`, no `errors.Join`), so an
error chain is a single value and `errors.Is` is equality. -/
def errAppearsIn (e : GoErr) (r : Option GoErr) : Bool :=
  r == some e

/-- Timestamps (in `time.Duration` nanoseconds, relative to the moment the
TFTP serve loop is handed to `g.Go`) of the three shutdown-relevant events of
`listenAndServeTFTP` / `serveTFTP`. -/
structure TFTPShutdownTimes where
  serveLoopStartAt : Nat
  connCloseAt : Nat
  engineShutdownAt : Nat
deriving DecidableEq, Repr

/-- The timed tail of `serveTFTP` (after its nil check passes): `g.Go` starts
the serve loop, `time.Sleep(time.Second)` runs unconditionally, `<-ctx.Done()`
blocks until the inner errgroup context is done (`cancelAt` is the time that
happens: at entry — 0 — for an already-canceled context, or later for parent
cancellation or a serve-loop failure), then `conn.Close()` and `ts.Shutdown()`
execute.  The model threads the clock through the statements in program
order. -/
def serveTFTPTimes (cancelAt : Nat) : TFTPShutdownTimes :=
  let serveLoopStartAt := 0
  let afterSleep := serveLoopStartAt + timeSecondNat
  let ctxDoneObservedAt := max afterSleep cancelAt
  let connCloseAt := ctxDoneObservedAt
  let engineShutdownAt := connCloseAt
  ⟨serveLoopStartAt, connCloseAt, engineShutdownAt⟩

/-- The timed tail of `listenAndServeTFTP` (after its address resolution and
`net.ListenUDP` succeed): identical statement sequence to `serveTFTP`. -/
def listenAndServeTFTPTimes (cancelAt : Nat) : TFTPShutdownTimes :=
  let serveLoopStartAt := 0
  let afterSleep := serveLoopStartAt + timeSecondNat
  let ctxDoneObservedAt := max afterSleep cancelAt
  let connCloseAt := ctxDoneObservedAt
  let engineShutdownAt := connCloseAt
  ⟨serveLoopStartAt, connCloseAt, engineShutdownAt⟩

/-- The timing skeleton shared by `ListenAndServe` and `Serve` once one of the
two serving tasks fails: when the group context cancels, when the surviving
sibling task observes that cancellation and begins / finishes its shutdown
sequence, when the failed task's goroutine returns, and when the orchestrator
itself returns from `g.Wait()`. -/
structure GroupRun where
  cancelAt : Nat
  siblingShutdownBeginAt : Nat
  siblingDoneAt : Nat
  failedDoneAt : Nat
  orchestratorReturnAt : Nat
deriving DecidableEq, Repr

/-- A run of the `errgroup.WithContext` group built by `ListenAndServe` /
`Serve` in which one of the two serving tasks returns a non-nil error at time
`failAt`.  Per the errgroup contract, the first non-nil task return cancels
the shared context, so the group context is done at `failAt` (or earlier, if
the caller's lifetime `parentCancelAt` expires first).  The sibling task
blocks on `<-ctx.Done()`, so it begins its shutdown sequence when the context
cancels and returns `siblingShutdownDur` later.  The orchestrator runs
`<-ctx.Done()` then `g.Wait()`, which blocks until both tasks have
returned. -/
def groupRunOnTaskFailure (parentCancelAt : Option Nat) (failAt : Nat)
    (siblingShutdownDur : Nat) : GroupRun :=
  let cancelAt :=
    match parentCancelAt with
    | none => failAt
    | some p => min p failAt
  let siblingShutdownBeginAt := cancelAt
  let siblingDoneAt := siblingShutdownBeginAt + siblingShutdownDur
  let failedDoneAt := failAt
  let orchestratorReturnAt := max cancelAt (max failedDoneAt siblingDoneAt)
  ⟨cancelAt, siblingShutdownBeginAt, siblingDoneAt, failedDoneAt, orchestratorReturnAt⟩

/-- A sample fully-unset configuration, used in concrete witnesses. -/
def zeroServer : Server :=
  { TFTP := { Addr := ⟨⟨none⟩, 0⟩, Timeout := 0, Disabled := false }
  , HTTP := { Addr := ⟨⟨none⟩, 0⟩, Timeout := 0, Disabled := false }
  , Log := ⟨none⟩
  , EnableTFTPSinglePort := false }

theorem mergeBool_false (d : Bool) : mergeBool d false = d := by
  cases d <;> rfl

theorem mergeIPPort_idem (a b : IPPort) :
    mergeIPPort (mergeIPPort a b) b = mergeIPPort a b := by
  unfold mergeIPPort
  by_cases h : a.IsZero = true
  · simp [h]
  · simp [h]

theorem mergeDuration_idem (a b : Int) :
    mergeDuration (mergeDuration a b) b = mergeDuration a b := by
  unfold mergeDuration
  by_cases h : a = 0
  · simp [h]
  · simp [h]

theorem mergeBool_idem (a b : Bool) :
    mergeBool (mergeBool a b) b = mergeBool a b := by
  cases a <;> cases b <;> rfl

theorem mergeLogger_idem (a b : Logger) :
    mergeLogger (mergeLogger a b) b = mergeLogger a b := by
  unfold mergeLogger
  by_cases h : a.sink.isNone = true
  · simp [h]
  · simp [h]

theorem mergeServerSpec_idem (a b : ServerSpec) :
    mergeServerSpec (mergeServerSpec a b) b = mergeServerSpec a b := by
  unfold mergeServerSpec
  simp [mergeIPPort_idem, mergeDuration_idem, mergeBool_idem]

theorem mergoMerge_idem (c d : Server) :
    mergoMerge (mergoMerge c d) d = mergoMerge c d := by
  unfold mergoMerge
  simp [mergeServerSpec_idem, mergeLogger_idem, mergeBool_idem]

theorem mergoMerge_disabled (c d : Server) (htf : d.TFTP.Disabled = false)
    (hht : d.HTTP.Disabled = false) :
    (mergoMerge c d).TFTP.Disabled = c.TFTP.Disabled ∧
      (mergoMerge c d).HTTP.Disabled = c.HTTP.Disabled := by
  simp [mergoMerge, mergeServerSpec, htf, hht, mergeBool_false]

/-- C3: `Serve` with a nil TCP listener returns the invalid-argument error
"tcp listener must not be nil" with the configuration untouched and no
serving task launched, for every configuration and every UDP argument;
symmetrically, for every non-nil TCP listener (typed nil or a real handle),
`Serve` with a nil UDP conn returns "udp conn must not be nil" with the
configuration untouched and no task launched. -/
theorem C3_serve_nil_handle_rejected (c : Server) (udp : GoIface UDPConn)
    (x : TCPListener) :
    ServeSetup c .nil udp =
        ⟨some (.errNew "tcp listener must not be nil"), c, []⟩ ∧
      ServeSetup c .typedNil .nil =
        ⟨some (.errNew "udp conn must not be nil"), c, []⟩ ∧
      ServeSetup c (.val x) .nil =
        ⟨some (.errNew "udp conn must not be nil"), c, []⟩ :=
  ⟨rfl, rfl, rfl⟩

/-- C4: the configuration-resolution step of `ListenAndServe` substitutes the
documented default for every field left at its zero value — TFTP address
0.0.0.0:69, HTTP address 0.0.0.0:8080, 5-second timeouts, discard log sink —
and preserves every field the caller set to a non-zero value, including the
Disabled and EnableTFTPSinglePort flags. -/
theorem C4_listenAndServe_defaults (c : Server) :
    (listenAndServeResolve c).TFTP.Addr =
        (if c.TFTP.Addr.IsZero then IPPortFrom (IPv4 0 0 0 0) 69 else c.TFTP.Addr) ∧
      (listenAndServeResolve c).HTTP.Addr =
        (if c.HTTP.Addr.IsZero then IPPortFrom (IPv4 0 0 0 0) 8080 else c.HTTP.Addr) ∧
      (listenAndServeResolve c).TFTP.Timeout =
        (if c.TFTP.Timeout = 0 then 5 * nsPerSecond else c.TFTP.Timeout) ∧
      (listenAndServeResolve c).HTTP.Timeout =
        (if c.HTTP.Timeout = 0 then 5 * nsPerSecond else c.HTTP.Timeout) ∧
      (listenAndServeResolve c).Log =
        (if c.Log.sink.isNone then logrDiscard else c.Log) ∧
      (listenAndServeResolve c).TFTP.Disabled = c.TFTP.Disabled ∧
      (listenAndServeResolve c).HTTP.Disabled = c.HTTP.Disabled ∧
      (listenAndServeResolve c).EnableTFTPSinglePort = c.EnableTFTPSinglePort := by
  refine ⟨?_, ?_, ?_, ?_, ?_, ?_, ?_, ?_⟩ <;>
    simp [listenAndServeResolve, mergoMerge, mergeServerSpec, mergeIPPort,
      mergeDuration, mergeLogger, mergeBool_false, listenAndServeDefaults]

/-- C5: configuration resolution is idempotent for both entry points: applying
the default-merging resolution to an already-resolved configuration changes no
field. -/
theorem C5_resolve_idempotent (c : Server) :
    listenAndServeResolve (listenAndServeResolve c) = listenAndServeResolve c ∧
      serveResolve (serveResolve c) = serveResolve c :=
  ⟨mergoMerge_idem c listenAndServeDefaults, mergoMerge_idem c serveDefaults⟩

/-- C6: when the HTTP serve loop's terminal signal is `http.ErrServerClosed`
and the graceful `hs.Shutdown(ctx)` completed without error, both
`listenAndServeHTTP` and `serveHTTP` return nil instead of reporting the
signal as a failure. -/
theorem C6_errServerClosed_suppressed :
    listenAndServeHTTPFinish none (some .errServerClosed) = none ∧
      serveHTTPFinish none (some .errServerClosed) = none :=
  ⟨rfl, rfl⟩

/-- C9: a typed-nil handle (non-nil interface wrapping a nil concrete value)
is detected by the reflection check at the top of `serveHTTP` and `serveTFTP`:
both return a non-nil error and never start serving. -/
theorem C9_typed_nil_detected :
    serveHTTPEntry .typedNil =
        ⟨some (.errNew "listener must not be nil"), false⟩ ∧
      serveTFTPEntry .typedNil =
        ⟨some (.errNew "conn must not be nil"), false⟩ :=
  ⟨rfl, rfl⟩

/-- C1: in both `serveTFTP` and `listenAndServeTFTP`, whatever the time at
which the context becomes done — including 0, a context already canceled at
entry — the socket close and the TFTP engine's `Shutdown` are issued no
earlier than one second after the serve loop was started: the unconditional
`time.Sleep(time.Second)` enforces the grace delay by construction. -/
theorem C1_tftp_shutdown_grace_delay (cancelAt : Nat) :
    (serveTFTPTimes cancelAt).serveLoopStartAt + timeSecondNat ≤
        (serveTFTPTimes cancelAt).connCloseAt ∧
      (serveTFTPTimes cancelAt).serveLoopStartAt + timeSecondNat ≤
        (serveTFTPTimes cancelAt).engineShutdownAt ∧
      (listenAndServeTFTPTimes cancelAt).serveLoopStartAt + timeSecondNat ≤
        (listenAndServeTFTPTimes cancelAt).connCloseAt ∧
      (listenAndServeTFTPTimes cancelAt).serveLoopStartAt + timeSecondNat ≤
        (listenAndServeTFTPTimes cancelAt).engineShutdownAt := by
  refine ⟨?_, ?_, ?_, ?_⟩ <;>
    simp [serveTFTPTimes, listenAndServeTFTPTimes]

/-- C7: in the shared errgroup of `ListenAndServe` / `Serve`, if a serving
task returns a non-nil error at some time, the shared lifetime is canceled no
later than that failure, the sibling task observes the cancellation and begins
its shutdown sequence at the cancellation time, and both the sibling's
shutdown start and its completion — as well as the failed task's return —
happen no later than the orchestrator's own return from `g.Wait()`: no task is
abandoned mid-flight. -/
theorem C7_sibling_shutdown_before_return (parentCancelAt : Option Nat)
    (failAt siblingShutdownDur : Nat) :
    (groupRunOnTaskFailure parentCancelAt failAt siblingShutdownDur).cancelAt ≤ failAt ∧
      (groupRunOnTaskFailure parentCancelAt failAt siblingShutdownDur).siblingShutdownBeginAt =
        (groupRunOnTaskFailure parentCancelAt failAt siblingShutdownDur).cancelAt ∧
      (groupRunOnTaskFailure parentCancelAt failAt siblingShutdownDur).siblingShutdownBeginAt ≤
        (groupRunOnTaskFailure parentCancelAt failAt siblingShutdownDur).orchestratorReturnAt ∧
      (groupRunOnTaskFailure parentCancelAt failAt siblingShutdownDur).siblingDoneAt ≤
        (groupRunOnTaskFailure parentCancelAt failAt siblingShutdownDur).orchestratorReturnAt ∧
      (groupRunOnTaskFailure parentCancelAt failAt siblingShutdownDur).failedDoneAt ≤
        (groupRunOnTaskFailure parentCancelAt failAt siblingShutdownDur).orchestratorReturnAt := by
  cases parentCancelAt <;>
    · refine ⟨?_, rfl, ?_, ?_, ?_⟩ <;> simp [groupRunOnTaskFailure]

/-- C8: with valid (non-nil-interface) handles, both entry points launch a
serving task for a protocol exactly when that protocol's `Disabled` flag is
false: each non-disabled protocol gets exactly one task and each disabled
protocol gets none. -/
theorem launchList_count (dt dh : Bool) :
    (((if dt then ([] : List ProtoTask) else [ProtoTask.tftp])
        ++ (if dh then ([] : List ProtoTask) else [ProtoTask.http])).count
          ProtoTask.tftp = if dt then 0 else 1) ∧
      (((if dt then ([] : List ProtoTask) else [ProtoTask.tftp])
        ++ (if dh then ([] : List ProtoTask) else [ProtoTask.http])).count
          ProtoTask.http = if dh then 0 else 1) := by
  cases dt <;> cases dh <;> decide

theorem C8_task_launch_iff_enabled (c : Server) (tcp : GoIface TCPListener)
    (udp : GoIface UDPConn) (htcp : tcp.isIfaceNil = false)
    (hudp : udp.isIfaceNil = false) :
    ((listenAndServeSetup c).tasks.count .tftp =
        if c.TFTP.Disabled then 0 else 1) ∧
      ((listenAndServeSetup c).tasks.count .http =
        if c.HTTP.Disabled then 0 else 1) ∧
      ((ServeSetup c tcp udp).tasks.count .tftp =
        if c.TFTP.Disabled then 0 else 1) ∧
      ((ServeSetup c tcp udp).tasks.count .http =
        if c.HTTP.Disabled then 0 else 1) := by
  have h1 := mergoMerge_disabled c listenAndServeDefaults rfl rfl
  have h2 := mergoMerge_disabled c serveDefaults rfl rfl
  have hc := launchList_count c.TFTP.Disabled c.HTTP.Disabled
  refine ⟨?_, ?_, ?_, ?_⟩
  · simpa only [listenAndServeSetup, listenAndServeResolve, h1.1, h1.2] using hc.1
  · simpa only [listenAndServeSetup, listenAndServeResolve, h1.1, h1.2] using hc.2
  · simp only [ServeSetup, serveResolve, htcp, hudp, Bool.false_eq_true, if_false]
    simpa only [h2.1, h2.2] using hc.1
  · simp only [ServeSetup, serveResolve, htcp, hudp, Bool.false_eq_true, if_false]
    simpa only [h2.1, h2.2] using hc.2

/-- Witness for C8 at a concrete input. -/
theorem C8_task_launch_iff_enabled_witness :
    GoIface.isIfaceNil (GoIface.val (0 : TCPListener)) = false ∧
      ((ServeSetup zeroServer (.val 0) (.val 0)).tasks.count .tftp =
        if zeroServer.TFTP.Disabled then 0 else 1) :=
  ⟨rfl, (C8_task_launch_iff_enabled zeroServer (.val 0) (.val 0) rfl rfl).2.2.1⟩

/-- C10: whenever the sequential prefix of `Serve` returns an error (which
happens exactly for the nil-handle configuration errors — both checks precede
the `mergo.Merge` call), the `Server` configuration is left exactly as the
caller supplied it and no serving task has been launched. -/
theorem C10_serve_error_atomicity (c : Server) (tcp : GoIface TCPListener)
    (udp : GoIface UDPConn) (e : GoErr)
    (h : (ServeSetup c tcp udp).result = some e) :
    (ServeSetup c tcp udp).config = c ∧ (ServeSetup c tcp udp).tasks = [] := by
  cases tcp <;> cases udp <;> simp_all [ServeSetup, GoIface.isIfaceNil]

/-- Witness for C10 at a concrete input. -/
theorem C10_serve_error_atomicity_witness :
    (ServeSetup zeroServer .nil .nil).result =
        some (.errNew "tcp listener must not be nil") ∧
      ((ServeSetup zeroServer .nil .nil).config = zeroServer ∧
        (ServeSetup zeroServer .nil .nil).tasks = []) :=
  ⟨rfl, C10_serve_error_atomicity zeroServer .nil .nil
    (.errNew "tcp listener must not be nil") rfl⟩

/-- C2 counterexample: a run of `ListenAndServe` / `Serve` in which both
serving tasks terminate with distinct non-suppressed errors (`generic 1`
completing first, `generic 2` second).  `g.Wait()` returns only the first
error; the second task's error does not appear in the returned value
(`errors.Is` on it is false), refuting the claim that the return value is the
joined set of all non-suppressed errors. -/
theorem C2_counterexample_second_error_dropped :
    ListenAndServeReturn [some (.generic 1), some (.generic 2)] =
        some (.generic 1) ∧
      errAppearsIn (.generic 2)
        (ListenAndServeReturn [some (.generic 1), some (.generic 2)]) = false ∧
      ServeReturn [some (.generic 1), some (.generic 2)] = some (.generic 1) := by
  refine ⟨rfl, ?_, rfl⟩
  decide

/-- C2 (amended): the value `ListenAndServe` / `Serve` returns from
`g.Wait()` is nil exactly when every task's result (post-suppression) was
nil, and otherwise is the single error of the earliest-completing task that
returned a non-suppressed error; errors of later-failing tasks are dropped,
not joined. -/
theorem C2_first_error_returned (rs : List (Option GoErr)) :
    (ListenAndServeReturn rs = none ↔ ∀ r ∈ rs, r = none) ∧
      (∀ e : GoErr, ListenAndServeReturn rs = some e →
        ∃ pre post, rs = pre ++ some e :: post ∧ ∀ r ∈ pre, r = none) ∧
      ServeReturn rs = ListenAndServeReturn rs := by
  refine ⟨?_, ?_, rfl⟩
  · induction rs with
    | nil => simp [ListenAndServeReturn, errgroupWait]
    | cons r t ih =>
      cases r with
      | none => simpa [ListenAndServeReturn, errgroupWait] using ih
      | some a => simp [ListenAndServeReturn, errgroupWait]
  · induction rs with
    | nil =>
      intro e h
      simp [ListenAndServeReturn, errgroupWait] at h
    | cons r t ih =>
      intro e h
      cases r with
      | none =>
        have h' : ListenAndServeReturn t = some e := by
          simpa [ListenAndServeReturn, errgroupWait] using h
        obtain ⟨pre, post, hsplit, hpre⟩ := ih e h'
        refine ⟨none :: pre, post, by simp [hsplit], ?_⟩
        intro r hr
        rcases List.mem_cons.mp hr with h1 | h2
        · exact h1
        · exact hpre r h2
      | some a =>
        have ha : a = e := by
          simpa [ListenAndServeReturn, errgroupWait] using h
        exact ⟨[], t, by simp [ha], by simp⟩

/-- Witness for the amended C2 statement at a concrete input. -/
theorem C2_first_error_returned_witness :
    (ListenAndServeReturn [none, some (.generic 7)] = none ↔
        ∀ r ∈ [none, some (GoErr.generic 7)], r = none) ∧
      (∀ e : GoErr, ListenAndServeReturn [none, some (.generic 7)] = some e →
        ∃ pre post, [none, some (GoErr.generic 7)] = pre ++ some e :: post ∧
          ∀ r ∈ pre, r = none) ∧
      ServeReturn [none, some (.generic 7)] =
        ListenAndServeReturn [none, some (.generic 7)] :=
  C2_first_error_returned [none, some (.generic 7)]

end Ipxedust
